/-
Verification of the rule-based decision chain of the Data-Driven Shot
Selection Advisory System.

Shallow embedding conventions:
  * Python floats are modelled as real numbers (where the code uses
    `np.exp`) or as rational numbers (for the purely arithmetic modules),
    `Optional[X]` as `Option X`, and Python string enums as `String` /
    inductive types.
  * `np.clip(x, lo, hi)` is modelled as `min hi (max lo x)`.
  * Python's `round(x, n)` (round-half-to-even on the value) is modelled
    by `roundTo`.
  * A Python f-string interpolation `{v:.1f}` applied to an optional
    value raises `TypeError` when the value is `None`; fallible string
    rendering is therefore modelled in the `Except` monad.  The exact
    decimal rendering of numbers inside explanation strings is
    abstracted by `toString`; no claim depends on the rendered digits.
-/
import Mathlib

set_option maxHeartbeats 1000000

/-! ## src/backend/defender_impact.py -/

/-- Defensive contest intensity categories (defender_impact.py, lines 14-19). -/
inductive ContestLevel where
  | TIGHT
  | CONTESTED
  | OPEN
  | WIDE_OPEN
deriving DecidableEq, Repr

/-- Model of `np.clip(x, lo, hi)`. -/
noncomputable def npClip (x lo hi : ℝ) : ℝ := min hi (max lo x)

namespace DefenderImpactModel

/-- `MAX_PENALTY = 0.35` (defender_impact.py, line 50). -/
noncomputable def MAX_PENALTY : ℝ := 0.35

/-- `DECAY_RATE = 0.25` (defender_impact.py, line 51). -/
noncomputable def DECAY_RATE : ℝ := 0.25

/-- `CONTEST_MULTIPLIERS` table (defender_impact.py, lines 54-59). -/
noncomputable def CONTEST_MULTIPLIERS : ContestLevel → ℝ
  | ContestLevel.TIGHT => 0.85
  | ContestLevel.CONTESTED => 0.92
  | ContestLevel.OPEN => 0.97
  | ContestLevel.WIDE_OPEN => 1.00

/-- `compute_distance_decay` (defender_impact.py, lines 61-94):
`None` or negative distance returns 1.0, otherwise
`np.clip(1 - MAX_PENALTY * exp(-DECAY_RATE * d), 0.65, 1.0)`. -/
noncomputable def compute_distance_decay (defender_distance : Option ℝ) : ℝ :=
  match defender_distance with
  | none => 1.0
  | some d =>
      if d < 0 then 1.0
      else npClip (1.0 - MAX_PENALTY * Real.exp (-DECAY_RATE * d)) 0.65 1.0

/-- `get_contest_multiplier` (defender_impact.py, lines 96-120):
`None` maps to the OPEN multiplier; every level is in the table. -/
noncomputable def get_contest_multiplier (contest_level : Option ContestLevel) : ℝ :=
  match contest_level with
  | none => CONTEST_MULTIPLIERS ContestLevel.OPEN
  | some level => CONTEST_MULTIPLIERS level

/-- Result dictionary of `compute_defender_impact` (defender_impact.py, lines 159-164). -/
structure Impact where
  impact_factor : ℝ
  distance_decay : ℝ
  contest_multiplier : ℝ
  percentage_adjustment : ℝ

/-- `compute_defender_impact` (defender_impact.py, lines 122-164). -/
noncomputable def compute_defender_impact (defender_distance : Option ℝ)
    (contest_level : Option ContestLevel) : Impact :=
  let distance_decay := compute_distance_decay defender_distance
  let contest_mult := get_contest_multiplier contest_level
  let impact_factor := distance_decay * contest_mult
  let percentage_adjustment := (impact_factor - 1.0) * 100
  { impact_factor := impact_factor
    distance_decay := distance_decay
    contest_multiplier := contest_mult
    percentage_adjustment := percentage_adjustment }

/-- `apply_defender_adjustment` (defender_impact.py, lines 166-210):
multiplies the base probability by the impact factor and clips to [0, 1]. -/
noncomputable def apply_defender_adjustment (base_probability : ℝ)
    (defender_distance : Option ℝ) (contest_level : Option ContestLevel) :
    ℝ × Impact :=
  let impact := compute_defender_impact defender_distance contest_level
  let adjusted_prob := base_probability * impact.impact_factor
  (npClip adjusted_prob 0.0 1.0, impact)

end DefenderImpactModel

/-! ## src/backend/shot_quality_breakdown.py -/

namespace ShotQualityAnalyzer

/-- Contest-level string parsing inside `_defensive_pressure`
(shot_quality_breakdown.py, lines 191-196): a falsy string (`None` or `""`)
leaves the enum as `None`; an unrecognized string falls back to OPEN. -/
def parseContestLevel (contest_level : Option String) : Option ContestLevel :=
  match contest_level with
  | none => none
  | some s =>
      if s = "" then none
      else if s = "TIGHT" then some ContestLevel.TIGHT
      else if s = "CONTESTED" then some ContestLevel.CONTESTED
      else if s = "OPEN" then some ContestLevel.OPEN
      else if s = "WIDE_OPEN" then some ContestLevel.WIDE_OPEN
      else some ContestLevel.OPEN

/-- `_baseline_ability` (shot_quality_breakdown.py, lines 76-83). -/
noncomputable def baseline_ability : ℝ := 0.05

/-- `_location_quality` (shot_quality_breakdown.py, lines 85-118). -/
noncomputable def location_quality (zone : String) (shot_distance : ℝ) : ℝ :=
  if zone = "Restricted Area" then 0.12
  else if zone = "Left Corner 3" ∨ zone = "Right Corner 3" then 0.08
  else if zone = "In The Paint (Non-RA)" then 0.03
  else if zone = "Above the Break 3" then 0.00
  else if zone = "Mid-Range" then
    if shot_distance < 16 then -0.05 else -0.10
  else 0.00

/-- `_shot_type_value` (shot_quality_breakdown.py, lines 120-136):
Python's `'3PT' in shot_type` is a substring test. -/
noncomputable def shot_type_value (shot_type : String) : ℝ :=
  if List.IsInfix "3PT".toList shot_type.toList then 0.08 else -0.02

/-- `_time_context` (shot_quality_breakdown.py, lines 138-163). -/
noncomputable def time_context (time_remaining : ℤ) (quarter : ℤ) : ℝ :=
  if 4 ≤ quarter ∧ time_remaining < 120 then -0.08
  else if time_remaining < 60 then -0.05
  else if quarter ≤ 2 ∧ 360 < time_remaining then 0.03
  else 0.00

/-- `_defensive_pressure` (shot_quality_breakdown.py, lines 165-213):
returns 0 when `defender_distance` is `None` (before even looking at the
contest level); otherwise `impact_factor - 1.0` from the defender model. -/
noncomputable def defensive_pressure (defender_distance : Option ℝ)
    (contest_level : Option String) : ℝ :=
  match defender_distance with
  | none => 0.0
  | some d =>
      let impact := DefenderImpactModel.compute_defender_impact (some d)
        (parseContestLevel contest_level)
      impact.impact_factor - 1.0

/-- Result dictionary of `compute_breakdown` (shot_quality_breakdown.py, lines 68-74). -/
structure Breakdown where
  baseline : ℝ
  location_quality : ℝ
  shot_type_value : ℝ
  time_context : ℝ
  defensive_pressure : ℝ

/-- `compute_breakdown` (shot_quality_breakdown.py, lines 24-74).
`make_probability` is accepted (first parameter, as in the source) but no
component reads it. -/
noncomputable def compute_breakdown (make_probability : ℝ) (shot_type zone : String)
    (shot_distance : ℝ) (time_remaining quarter : ℤ)
    (defender_distance : Option ℝ) (contest_level : Option String) : Breakdown :=
  let _ := make_probability
  { baseline := baseline_ability
    location_quality := location_quality zone shot_distance
    shot_type_value := shot_type_value shot_type
    time_context := time_context time_remaining quarter
    defensive_pressure := defensive_pressure defender_distance contest_level }

end ShotQualityAnalyzer

/-! ## Rounding (model of Python's `round(x, n)`, round-half-to-even) -/

/-- Round a rational to the nearest integer, ties to even. -/
def roundHalfEven (q : ℚ) : ℤ :=
  let f := ⌊q⌋
  let r := q - (f : ℚ)
  if r < 1/2 then f
  else if 1/2 < r then f + 1
  else if Even f then f else f + 1

/-- `round(q, n)`: round half to even at `n` decimal places. -/
def roundTo (n : ℕ) (q : ℚ) : ℚ := (roundHalfEven (q * 10 ^ n) : ℚ) / 10 ^ n

/-! ## src/ml/shot_advisory.py -/

namespace ShotAdvisor

/-- `base_threshold = 0.45` (shot_advisory.py, line 19). -/
def base_threshold : ℚ := 0.45

/-- `late_clock_threshold = 0.30` (shot_advisory.py, line 40). -/
def late_clock_threshold : ℚ := 0.30

/-- `shot_type_thresholds` dict (shot_advisory.py, lines 22-25); the dict
membership test plus lookup is modelled as an optional-valued function. -/
def shot_type_thresholds (shot_type : String) : Option ℚ :=
  if shot_type = "3PT Field Goal" then some 0.35
  else if shot_type = "2PT Field Goal" then some 0.50
  else none

/-- `zone_thresholds` dict (shot_advisory.py, lines 28-37). -/
def zone_thresholds (zone : String) : Option ℚ :=
  if zone = "Restricted Area" then some 0.40
  else if zone = "In The Paint (Non-RA)" then some 0.45
  else if zone = "Mid-Range" then some 0.55
  else if zone = "Above the Break 3" then some 0.35
  else if zone = "Left Corner 3" then some 0.35
  else if zone = "Right Corner 3" then some 0.35
  else if zone = "Right Side 3" then some 0.35
  else if zone = "Left Side 3" then some 0.35
  else none

/-- `get_threshold` (shot_advisory.py, lines 42-79): shot type overrides the
base, zone and late clock only lower (min), overtime scales by 0.95 last. -/
def get_threshold (shot_type zone : String) (time_remaining : ℚ) (quarter : ℤ) : ℚ :=
  let t0 := match shot_type_thresholds shot_type with
            | some v => v
            | none => base_threshold
  let t1 := match zone_thresholds zone with
            | some v => min t0 v
            | none => t0
  let t2 := if time_remaining ≤ 5.0 then min t1 late_clock_threshold else t1
  if 4 < quarter then t2 * 0.95 else t2

/-- Numeric fields of the dict returned by `advise` (shot_advisory.py, lines
187-193); the purely presentational `explanation` string list (built by
`get_explanation`) is not modelled, no claim depends on it. -/
structure AdviseResult where
  decision : String
  make_probability : ℚ
  threshold : ℚ
  confidence : ℚ

/-- `advise` (shot_advisory.py, lines 149-193): decision by threshold
comparison, confidence is `|p - threshold|`, and all reported numbers pass
through `round(x, 4)`. -/
def advise (make_probability : ℚ) (shot_type zone : String) (distance : ℚ)
    (time_remaining : ℚ) (quarter : ℤ) : AdviseResult :=
  let _ := distance
  let threshold := get_threshold shot_type zone time_remaining quarter
  let decision := if threshold ≤ make_probability then "TAKE SHOT" else "PASS"
  let confidence := |make_probability - threshold|
  { decision := decision
    make_probability := roundTo 4 make_probability
    threshold := roundTo 4 threshold
    confidence := roundTo 4 confidence }

end ShotAdvisor

/-! ## src/backend/action_recommender.py -/

/-- `RecommendedAction` enum (action_recommender.py, lines 12-20). -/
inductive RecommendedAction where
  | SWING_PASS
  | ATTACK_CLOSEOUT
  | RESET_OFFENSE
  | LOOK_INSIDE
  | DRIVE_AND_KICK
  | BEST_AVAILABLE
  | RELOCATE
deriving DecidableEq

/-- The `.value` strings of `RecommendedAction`. -/
def RecommendedAction.value : RecommendedAction → String
  | SWING_PASS => "Swing Pass"
  | ATTACK_CLOSEOUT => "Attack the Closeout"
  | RESET_OFFENSE => "Reset the Offense"
  | LOOK_INSIDE => "Look Inside"
  | DRIVE_AND_KICK => "Drive and Kick"
  | BEST_AVAILABLE => "Take Best Available Shot"
  | RELOCATE => "Relocate for Better Look"

/-- Rendering of a number inside an f-string (`{v:.1f}`, `{v:.1%}`, `{v}`).
The exact decimal digits are irrelevant to every claim; only totality
matters, so the rendering itself is abstracted by `toString`. -/
def fmtQ (q : ℚ) : String := toString q

/-- Python f-string formatting `{v:.1f}` applied to an `Optional[float]`:
raises `TypeError` when the value is `None`. -/
def fmtOptQ (q : Option ℚ) : Except String String :=
  match q with
  | none => Except.error "TypeError: unsupported format string passed to NoneType.__format__"
  | some v => Except.ok (toString v)

namespace ActionRecommender

/-- `TIGHT_THRESHOLD = 3.0` (action_recommender.py, line 30). -/
def TIGHT_THRESHOLD : ℚ := 3.0

/-- `CONTESTED_THRESHOLD = 6.0` (action_recommender.py, line 31). -/
def CONTESTED_THRESHOLD : ℚ := 6.0

/-- `LOW_QUALITY_THRESHOLD = 0.30` (action_recommender.py, line 35). -/
def LOW_QUALITY_THRESHOLD : ℚ := 0.30

/-- `MEDIUM_QUALITY_THRESHOLD = 0.35` (action_recommender.py, line 36). -/
def MEDIUM_QUALITY_THRESHOLD : ℚ := 0.35

/-- `LATE_CLOCK_THRESHOLD = 5` (action_recommender.py, line 39). -/
def LATE_CLOCK_THRESHOLD : ℤ := 5

/-- `EARLY_CLOCK_THRESHOLD = 15` (action_recommender.py, line 40). -/
def EARLY_CLOCK_THRESHOLD : ℤ := 15

/-- `THREE_POINT_ZONES` (action_recommender.py, lines 43-49). -/
def THREE_POINT_ZONES : List String :=
  ["Above the Break 3", "Left Corner 3", "Right Corner 3", "Left Side 3", "Right Side 3"]

/-- `PAINT_ZONES` (action_recommender.py, lines 51-54). -/
def PAINT_ZONES : List String :=
  ["Restricted Area", "In The Paint (Non-RA)"]

/-- Python's `(defender_distance and defender_distance <= thr)`:
`None` and `0.0` are falsy, so the distance only counts when it is present,
nonzero, and at most `thr`. -/
def dd_active_le (defender_distance : Option ℚ) (thr : ℚ) : Prop :=
  match defender_distance with
  | none => False
  | some d => d ≠ 0 ∧ d ≤ thr

instance : ∀ (defender_distance : Option ℚ) (thr : ℚ),
    Decidable (dd_active_le defender_distance thr)
  | none, _ => isFalse fun h => h
  | some d, thr => inferInstanceAs (Decidable (d ≠ 0 ∧ d ≤ thr))

/-- `_identify_primary_reason` (action_recommender.py, lines 115-159):
strict priority cascade, first match wins. -/
def identify_primary_reason (make_probability : ℚ) (defender_distance : Option ℚ)
    (contest_level : Option String) (zone : String) (shot_distance : ℚ)
    (time_remaining : ℤ) (shot_type : String) : String :=
  if time_remaining ≤ LATE_CLOCK_THRESHOLD then "late_clock"
  else if contest_level = some "TIGHT" ∨ dd_active_le defender_distance TIGHT_THRESHOLD then
    if zone ∈ THREE_POINT_ZONES ∧ shot_type = "3PT Field Goal" then "tight_contest_good_zone"
    else "tight_contest"
  else if contest_level = some "CONTESTED" ∨
      dd_active_le defender_distance CONTESTED_THRESHOLD then
    if zone ∈ THREE_POINT_ZONES then "contested_perimeter" else "contested_shot"
  else if make_probability < LOW_QUALITY_THRESHOLD then
    if 20 < shot_distance then "poor_location_perimeter" else "poor_location_general"
  else if make_probability < MEDIUM_QUALITY_THRESHOLD ∧
      EARLY_CLOCK_THRESHOLD ≤ time_remaining then
    "marginal_quality_time_available"
  else "low_quality_general"

/-- `_select_action` (action_recommender.py, lines 161-310).  The reasoning
templates that interpolate `{defender_distance:.1f}` raise `TypeError` when
`defender_distance` is `None`; those branches are therefore `Except`-valued
through `fmtOptQ`.  Template text is kept, with number rendering abstracted
by `fmtQ`/`fmtOptQ`. -/
def select_action (primary_reason : String) (make_probability : ℚ)
    (shot_type zone : String) (shot_distance : ℚ) (time_remaining quarter : ℤ)
    (defender_distance : Option ℚ) (contest_level : Option String) :
    Except String (RecommendedAction × String) :=
  let _ := contest_level
  if primary_reason = "late_clock" then
    if quarter = 4 ∧ time_remaining ≤ 3 then
      Except.ok (RecommendedAction.BEST_AVAILABLE,
        "Clock is critical in the 4th quarter. If no better option emerges " ++
        "in the next second, this might be your best available shot despite the low probability.")
    else
      Except.ok (RecommendedAction.BEST_AVAILABLE,
        "With only " ++ toString time_remaining ++ " seconds left, limited options remain. " ++
        "Look for a quick drive or immediate kick-out, but be ready to shoot if nothing develops.")
  else if primary_reason = "tight_contest_good_zone" then
    if 22 ≤ shot_distance then
      match fmtOptQ defender_distance with
      | Except.error e => Except.error e
      | Except.ok fd =>
          Except.ok (RecommendedAction.ATTACK_CLOSEOUT,
            "The defender is flying at you (" ++ fd ++ " ft away) but you are in " ++
            "a quality " ++ zone ++ " spot. Attack the closeout with a hard drive to force help defense, " ++
            "then kick to an open teammate or finish at the rim.")
    else
      Except.ok (RecommendedAction.DRIVE_AND_KICK,
        "The defender is tight on you in a decent mid-range area. " ++
        "Use your dribble to collapse the defense and create an open perimeter look.")
  else if primary_reason = "tight_contest" then
    match fmtOptQ defender_distance with
    | Except.error e => Except.error e
    | Except.ok fd =>
        Except.ok (RecommendedAction.SWING_PASS,
          "The defender is locked in tight (" ++ fd ++ " ft away), limiting your shooting space. " ++
          "A quick swing pass forces defensive rotation and should create an open look on the weak side.")
  else if primary_reason = "contested_perimeter" then
    if EARLY_CLOCK_THRESHOLD ≤ time_remaining then
      match fmtOptQ defender_distance with
      | Except.error e => Except.error e
      | Except.ok fd =>
          Except.ok (RecommendedAction.SWING_PASS,
            "The defender is contesting actively (" ++ fd ++ " ft) on a three-point attempt. " ++
            "With time on the clock, swing the ball to find a cleaner look or better spacing.")
    else
      Except.ok (RecommendedAction.RELOCATE,
        "The defender has you contested on the perimeter. " ++
        "Relocate to another spot along the arc to create separation, or look for a backdoor cut.")
  else if primary_reason = "contested_shot" then
    Except.ok (RecommendedAction.LOOK_INSIDE,
      "The defender is contesting your mid-range look. " ++
      "Scan for a cutting teammate or post entry paint touches often lead to better shots or free throws.")
  else if primary_reason = "poor_location_perimeter" then
    Except.ok (RecommendedAction.RESET_OFFENSE,
      "This " ++ fmtQ shot_distance ++ "-foot shot is outside optimal range (" ++
      fmtQ make_probability ++ " probability). " ++
      "Reset the offense to generate a higher-quality look through ball movement or a designed play.")
  else if primary_reason = "poor_location_general" then
    if zone ∈ PAINT_ZONES then
      Except.ok (RecommendedAction.DRIVE_AND_KICK,
        "You are in traffic in the paint. " ++
        "Kick out to a perimeter shooter to force the defense to recover and create better spacing.")
    else
      Except.ok (RecommendedAction.LOOK_INSIDE,
        "The " ++ zone ++ " is not yielding quality looks right now. " ++
        "Feed the post or drive to collapse the defense, then kick out for an open three.")
  else if primary_reason = "marginal_quality_time_available" then
    if shot_type = "3PT Field Goal" then
      Except.ok (RecommendedAction.RESET_OFFENSE,
        "This three-pointer shows " ++ fmtQ make_probability ++ " probability with " ++
        toString time_remaining ++ "s remaining. " ++
        "Run another action to create a better look penetrate and kick, or set a ball screen.")
    else
      Except.ok (RecommendedAction.LOOK_INSIDE,
        "This two-pointer is marginal (" ++ fmtQ make_probability ++ ") with time on the clock. " ++
        "Probe the paint for a higher-percentage shot or drawing help to kick out.")
  else if 10 ≤ time_remaining then
    Except.ok (RecommendedAction.RESET_OFFENSE,
      "This shot has a " ++ fmtQ make_probability ++ " make probability. " ++
      "With time available, reset and run an action to generate a better opportunity.")
  else
    Except.ok (RecommendedAction.SWING_PASS,
      "The shot quality is below threshold. Make a quick pass to find a better look before the clock expires.")

/-- Result dictionary of `get_recommendation` (action_recommender.py, lines 109-113). -/
structure RecResult where
  action : String
  reasoning : String
  primary_reason : String
deriving DecidableEq

/-- `get_recommendation` (action_recommender.py, lines 56-113): classify the
primary reason, then select an action; a `TypeError` raised while rendering
a reasoning template propagates out as an error. -/
def get_recommendation (make_probability : ℚ) (shot_type zone : String)
    (shot_distance : ℚ) (time_remaining quarter : ℤ)
    (defender_distance : Option ℚ) (contest_level : Option String) :
    Except String RecResult :=
  let primary_reason := identify_primary_reason make_probability defender_distance
    contest_level zone shot_distance time_remaining shot_type
  match select_action primary_reason make_probability shot_type zone shot_distance
      time_remaining quarter defender_distance contest_level with
  | Except.error e => Except.error e
  | Except.ok (action, reasoning) =>
      Except.ok { action := action.value
                  reasoning := reasoning
                  primary_reason := primary_reason }

end ActionRecommender

/-! ## src/backend/action_confidence.py

`compute_action_confidence` is one sequential function; its four adjustment
blocks are extracted here as named helpers (each keeping the source's
condition order and append order) so the proofs can treat them separately.
The purely presentational `confidence_reasoning` string (STEP 5) is not
modelled; no claim depends on it. -/

/-- Python truthiness of an optional string (`if contest_level:`). -/
def truthyStr (s : Option String) : Prop := s ≠ none ∧ s ≠ some ""

instance (s : Option String) : Decidable (truthyStr s) := by
  unfold truthyStr; infer_instance

/-- STEP 1 (action_confidence.py, lines 60-74): base confidence from the
probability-threshold gap. -/
def base_confidence_of_gap (gap : ℚ) : ℚ :=
  if 0.15 ≤ gap then 0.85
  else if 0.10 ≤ gap then 0.70
  else if 0.05 ≤ gap then 0.55
  else 0.40

/-- Defender-contest adjustment (action_confidence.py, lines 84-92). -/
def contest_adjustment (decision : String) (contest_level : Option String) :
    ℚ × List String :=
  if decision = "PASS" ∧ truthyStr contest_level then
    if contest_level = some "TIGHT" then (0.10, ["tight_contest"])
    else if contest_level = some "CONTESTED" then (0.05, ["contested_shot"])
    else (0, [])
  else (0, [])

/-- Time-pressure adjustment (action_confidence.py, lines 96-103). -/
def time_adjustment (time_remaining : ℤ) : ℚ × List String :=
  if time_remaining ≤ 5 then (-0.10, ["late_clock_pressure"])
  else if time_remaining ≤ 10 then (-0.05, ["moderate_time_pressure"])
  else (0, [])

/-- Zone/distance-mismatch adjustment (action_confidence.py, lines 107-121):
an if/elif/elif chain, so at most one of the three location adjustments
fires, first match wins. -/
def location_adjustment (decision shot_type zone : String) (shot_distance : ℚ) :
    ℚ × List String :=
  if decision = "PASS" then
    if shot_type = "3PT Field Goal" ∧ 27 ≤ shot_distance then
      (0.08, ["deep_three_attempt"])
    else if shot_type = "2PT Field Goal" ∧ zone = "Mid-Range" ∧ 15 ≤ shot_distance then
      (0.06, ["inefficient_midrange"])
    else if shot_type = "3PT Field Goal" ∧ zone = "Above the Break 3" ∧
        25 ≤ shot_distance then
      (0.07, ["difficult_angle"])
    else (0, [])
  else (0, [])

/-- Clutch-situation adjustment (action_confidence.py, lines 125-127). -/
def clutch_adjustment (quarter time_remaining : ℤ) : ℚ × List String :=
  if 4 ≤ quarter ∧ time_remaining ≤ 120 then (-0.08, ["clutch_situation"])
  else (0, [])

/-- `confidence_factors` dict (action_confidence.py, lines 200-205). -/
structure ConfidenceFactors where
  base_confidence : ℚ
  probability_threshold_gap : ℚ
  total_adjustment : ℚ
  active_adjustments : List String
deriving DecidableEq

/-- Return dict of `compute_action_confidence` (action_confidence.py, lines
196-206), minus the presentational `confidence_reasoning` string. -/
structure ConfidenceResult where
  action_confidence : ℚ
  confidence_level : String
  confidence_factors : ConfidenceFactors
deriving DecidableEq

/-- `compute_action_confidence` (action_confidence.py, lines 14-206):
base confidence from the gap, four additive adjustment blocks (contest,
time, location, clutch, applied in source order), clamp to [0.15, 0.95],
then the level label; reported floats are rounded (score and adjustments to
2 places, gap to 3). -/
def compute_action_confidence (make_probability threshold : ℚ)
    (decision shot_type zone : String) (shot_distance : ℚ)
    (time_remaining quarter : ℤ) (defender_distance : Option ℚ)
    (contest_level : Option String) (recommended_action : Option String) :
    ConfidenceResult :=
  let _ := defender_distance
  let _ := recommended_action
  let prob_threshold_gap := |make_probability - threshold|
  let base_confidence := base_confidence_of_gap prob_threshold_gap
  let ca := contest_adjustment decision contest_level
  let ta := time_adjustment time_remaining
  let la := location_adjustment decision shot_type zone shot_distance
  let cla := clutch_adjustment quarter time_remaining
  let total_adjustment := ca.1 + ta.1 + la.1 + cla.1
  let confidence_adjustments := ca.2 ++ ta.2 ++ la.2 ++ cla.2
  let final_confidence := min 0.95 (max 0.15 (base_confidence + total_adjustment))
  let confidence_level :=
    if 0.75 ≤ final_confidence then "Very High"
    else if 0.60 ≤ final_confidence then "High"
    else if 0.45 ≤ final_confidence then "Moderate"
    else "Low"
  { action_confidence := roundTo 2 final_confidence
    confidence_level := confidence_level
    confidence_factors :=
      { base_confidence := roundTo 2 base_confidence
        probability_threshold_gap := roundTo 3 prob_threshold_gap
        total_adjustment := roundTo 2 total_adjustment
        active_adjustments := confidence_adjustments } }

/-! ### Helper lemmas: every confidence quantity is a multiple of 0.01 -/

/-- `x` is an integer multiple of 1/100. -/
def Cent (x : ℚ) : Prop := ∃ k : ℤ, x = (k : ℚ) / 100


/-- `True` exactly for the three location-adjustment tag strings. -/
def isLocationTag (s : String) : Bool :=
  s == "deep_three_attempt" || s == "inefficient_midrange" || s == "difficult_angle"

/-- `roundHalfEven` fixes integers. -/
theorem roundHalfEven_intCast (k : ℤ) : roundHalfEven (k : ℚ) = k := by
  unfold roundHalfEven
  rw [Int.floor_intCast]
  simp

/-- `roundTo n` fixes rationals that are exact multiples of `10 ^ (-n)`. -/
theorem roundTo_eq_self {n : ℕ} {q : ℚ} (k : ℤ) (hk : q = (k : ℚ) / 10 ^ n) :
    roundTo n q = q := by
  subst hk
  unfold roundTo
  rw [div_mul_cancel₀ _ (by positivity : ((10:ℚ) ^ n) ≠ 0), roundHalfEven_intCast]

/-- Evaluation helper: `roundHalfEven` rounds up when the fractional part
exceeds 1/2. -/
theorem roundHalfEven_eq_add_one (q : ℚ) (f : ℤ) (h1 : ⌊q⌋ = f)
    (h2 : 1/2 < q - (f : ℚ)) : roundHalfEven q = f + 1 := by
  unfold roundHalfEven
  rw [h1, if_neg (by linarith), if_pos h2]

/-! ## Theorems: C1 and C9 -/

/-- C1: the claim (and the function's own docstring, which asserts
`apply_defender_adjustment(0.38, None, None) == 0.38`) says that with both
defender inputs absent the base probability is returned unchanged.  The code
instead multiplies by `get_contest_multiplier(None) = 0.97` (the OPEN
multiplier), so `apply_defender_adjustment(0.38, None, None)` returns
0.3686, not 0.38. -/
theorem C1_apply_defender_adjustment_none_none_not_identity :
    (DefenderImpactModel.apply_defender_adjustment 0.38 none none).1 = 0.3686 ∧
    (DefenderImpactModel.apply_defender_adjustment 0.38 none none).1 ≠ 0.38 := by
  have h : (DefenderImpactModel.apply_defender_adjustment 0.38 none none).1
      = npClip (0.38 * (1.0 * 0.97)) 0.0 1.0 := rfl
  rw [h, npClip]
  constructor
  · rw [max_eq_right (by norm_num), min_eq_right (by norm_num)]
    norm_num
  · rw [max_eq_right (by norm_num), min_eq_right (by norm_num)]
    norm_num

/-- C9: for every defender distance d ≥ 0, `compute_distance_decay(d)` lies in
[0.65, 1.0], and the decay is monotonically non-decreasing in the distance. -/
theorem C9_distance_decay_bounds_and_mono (d d' : ℝ) (hd : 0 ≤ d) (hdd : d ≤ d') :
    (0.65 ≤ DefenderImpactModel.compute_distance_decay (some d) ∧
      DefenderImpactModel.compute_distance_decay (some d) ≤ 1.0) ∧
    DefenderImpactModel.compute_distance_decay (some d) ≤
      DefenderImpactModel.compute_distance_decay (some d') := by
  have hd' : 0 ≤ d' := le_trans hd hdd
  simp only [DefenderImpactModel.compute_distance_decay]
  rw [if_neg (not_lt.mpr hd), if_neg (not_lt.mpr hd')]
  refine ⟨⟨?_, ?_⟩, ?_⟩
  · exact le_min (by norm_num) (le_max_left _ _)
  · exact min_le_left _ _
  · -- the inner expression is monotone: exp(-λ d') ≤ exp(-λ d)
    have hexp : Real.exp (-DefenderImpactModel.DECAY_RATE * d') ≤
        Real.exp (-DefenderImpactModel.DECAY_RATE * d) := by
      apply Real.exp_le_exp.mpr
      have hrate : (0:ℝ) ≤ DefenderImpactModel.DECAY_RATE := by
        unfold DefenderImpactModel.DECAY_RATE; norm_num
      nlinarith
    have hinner : 1.0 - DefenderImpactModel.MAX_PENALTY *
        Real.exp (-DefenderImpactModel.DECAY_RATE * d) ≤
        1.0 - DefenderImpactModel.MAX_PENALTY *
        Real.exp (-DefenderImpactModel.DECAY_RATE * d') := by
      have hpen : (0:ℝ) ≤ DefenderImpactModel.MAX_PENALTY := by
        unfold DefenderImpactModel.MAX_PENALTY; norm_num
      nlinarith
    exact min_le_min (le_refl _) (max_le_max (le_refl _) hinner)

/-- C9 witness: instantiation at d = 0, d' = 1. -/
theorem C9_distance_decay_bounds_and_mono_witness :
    ((0.65 ≤ DefenderImpactModel.compute_distance_decay (some 0) ∧
      DefenderImpactModel.compute_distance_decay (some 0) ≤ 1.0) ∧
    DefenderImpactModel.compute_distance_decay (some 0) ≤
      DefenderImpactModel.compute_distance_decay (some 1)) :=
  C9_distance_decay_bounds_and_mono 0 1 (by norm_num) (by norm_num)

/-! ## Theorems: C5 and C10 -/

/-- C5 counterexample: with `defender_distance = None` and
`contest_level = "TIGHT"`, `_defensive_pressure` returns 0, whereas the
defender model's `impact_factor - 1.0` for the same inputs is
`1.0 * 0.85 - 1.0 = -0.15`; the claimed equality fails there. -/
theorem C5_defensive_pressure_none_tight_counterexample :
    ShotQualityAnalyzer.defensive_pressure none (some "TIGHT") ≠
      (DefenderImpactModel.compute_defender_impact none
        (some ContestLevel.TIGHT)).impact_factor - 1.0 := by
  have h1 : ShotQualityAnalyzer.defensive_pressure none (some "TIGHT") = 0.0 := rfl
  have h2 : (DefenderImpactModel.compute_defender_impact none
      (some ContestLevel.TIGHT)).impact_factor = 1.0 * 0.85 := rfl
  rw [h1, h2]
  norm_num

/-- C5 amended: the `defensive_pressure` component equals
`impact_factor - 1.0` whenever `defender_distance` is present, and equals 0
whenever `defender_distance` is absent, regardless of the supplied
`contest_level` (so with absent distance and TIGHT contest it is 0, not
-0.15). -/
theorem C5_defensive_pressure_amended (contest_level : Option String) :
    (∀ d : ℝ, ShotQualityAnalyzer.defensive_pressure (some d) contest_level =
      (DefenderImpactModel.compute_defender_impact (some d)
        (ShotQualityAnalyzer.parseContestLevel contest_level)).impact_factor - 1.0) ∧
    ShotQualityAnalyzer.defensive_pressure none contest_level = 0 :=
  ⟨fun _ => rfl, by norm_num [ShotQualityAnalyzer.defensive_pressure]⟩

/-- C10: `compute_breakdown` does not depend on its `make_probability`
argument: any two calls differing only in `make_probability` return
identical five-component breakdowns. -/
theorem C10_compute_breakdown_ignores_make_probability
    (p p' : ℝ) (shot_type zone : String) (shot_distance : ℝ)
    (time_remaining quarter : ℤ) (defender_distance : Option ℝ)
    (contest_level : Option String) :
    ShotQualityAnalyzer.compute_breakdown p shot_type zone shot_distance
      time_remaining quarter defender_distance contest_level =
    ShotQualityAnalyzer.compute_breakdown p' shot_type zone shot_distance
      time_remaining quarter defender_distance contest_level := rfl

/-! ## Theorems: C4 and C7 -/

/-- C4 counterexample: at `make_probability = 0.33333`, shot type
`2PT Field Goal`, zone `Mid-Range`, `time_remaining = 10`, `quarter = 1`, the
threshold is 0.5 and `|p - threshold| = 0.16667`, but the returned confidence
is `round(0.16667, 4) = 0.1667`, so it is not exactly `|p - threshold|`. -/
theorem C4_advise_confidence_rounding_counterexample :
    (ShotAdvisor.advise 0.33333 "2PT Field Goal" "Mid-Range" 18 10 1).confidence ≠
      |(0.33333 : ℚ) - ShotAdvisor.get_threshold "2PT Field Goal" "Mid-Range" 10 1| := by
  have hth : ShotAdvisor.get_threshold "2PT Field Goal" "Mid-Range" 10 1 = 0.5 := by
    have h1 : ShotAdvisor.shot_type_thresholds "2PT Field Goal" = some 0.50 := rfl
    have h2 : ShotAdvisor.zone_thresholds "Mid-Range" = some 0.55 := rfl
    simp only [ShotAdvisor.get_threshold, h1, h2]
    norm_num [min_def]
  have habs : |(0.33333 : ℚ) - ShotAdvisor.get_threshold "2PT Field Goal" "Mid-Range" 10 1|
      = 0.16667 := by
    rw [hth, abs_of_neg (by norm_num : (0.33333:ℚ) - 0.5 < 0)]
    norm_num
  have hconf : (ShotAdvisor.advise 0.33333 "2PT Field Goal" "Mid-Range" 18 10 1).confidence
      = roundTo 4 |(0.33333 : ℚ) - ShotAdvisor.get_threshold "2PT Field Goal" "Mid-Range" 10 1| :=
    rfl
  have hfl : ⌊(0.16667:ℚ) * 10 ^ 4⌋ = 1666 := by
    rw [Int.floor_eq_iff]; norm_num
  have hrhe : roundHalfEven ((0.16667:ℚ) * 10 ^ 4) = 1667 :=
    roundHalfEven_eq_add_one _ 1666 hfl (by norm_num)
  have hr : roundTo 4 (0.16667 : ℚ) = 0.1667 := by
    unfold roundTo; rw [hrhe]; norm_num
  rw [hconf, habs, hr]
  norm_num

/-- C4 amended: `advise` returns decision `TAKE SHOT` iff
`make_probability ≥ get_threshold(...)` (otherwise `PASS`), and the returned
confidence equals `|make_probability - threshold|` rounded to 4 decimal
places (not the exact value). -/
theorem C4_advise_decision_and_confidence
    (p : ℚ) (shot_type zone : String) (distance time_remaining : ℚ) (quarter : ℤ) :
    ((ShotAdvisor.advise p shot_type zone distance time_remaining quarter).decision
        = "TAKE SHOT" ↔
      ShotAdvisor.get_threshold shot_type zone time_remaining quarter ≤ p) ∧
    (ShotAdvisor.advise p shot_type zone distance time_remaining quarter).confidence
        = roundTo 4 |p - ShotAdvisor.get_threshold shot_type zone time_remaining quarter| := by
  refine ⟨?_, rfl⟩
  show (if ShotAdvisor.get_threshold shot_type zone time_remaining quarter ≤ p
      then "TAKE SHOT" else "PASS") = "TAKE SHOT" ↔ _
  split_ifs with h
  · simp [h]
  · simp only [h, iff_false]
    decide

/-- C7: `get_threshold` always returns a value in (0, 0.5], and the overtime
(quarter > 4) threshold is at most the quarter-4 threshold for identical
other inputs. -/
theorem C7_get_threshold_range_and_overtime
    (shot_type zone : String) (time_remaining : ℚ) (quarter : ℤ)
    (ht : 0 ≤ time_remaining) (hq : 1 ≤ quarter) :
    (0 < ShotAdvisor.get_threshold shot_type zone time_remaining quarter ∧
      ShotAdvisor.get_threshold shot_type zone time_remaining quarter ≤ 0.5) ∧
    (4 < quarter →
      ShotAdvisor.get_threshold shot_type zone time_remaining quarter ≤
        ShotAdvisor.get_threshold shot_type zone time_remaining 4) := by
  have hbase : 0 < ShotAdvisor.get_threshold shot_type zone time_remaining 4 ∧
      ShotAdvisor.get_threshold shot_type zone time_remaining 4 ≤ 0.5 := by
    simp only [ShotAdvisor.get_threshold, ShotAdvisor.shot_type_thresholds,
      ShotAdvisor.zone_thresholds, ShotAdvisor.base_threshold,
      ShotAdvisor.late_clock_threshold]
    rw [if_neg (by omega : ¬ (4:ℤ) < 4)]
    split_ifs <;> simp_all [min_def] <;> norm_num
  have hsplit : ShotAdvisor.get_threshold shot_type zone time_remaining quarter =
      if 4 < quarter then
        ShotAdvisor.get_threshold shot_type zone time_remaining 4 * 0.95
      else ShotAdvisor.get_threshold shot_type zone time_remaining 4 := by
    simp only [ShotAdvisor.get_threshold]
    rw [if_neg (by omega : ¬ (4:ℤ) < 4)]
  rw [hsplit]
  rcases hbase with ⟨h0, h5⟩
  constructor
  · split_ifs with h
    · constructor
      · positivity
      · nlinarith
    · exact ⟨h0, h5⟩
  · intro h
    rw [if_pos h]
    nlinarith

/-- C7 witness: instantiation at shot type `3PT Field Goal`, zone
`Above the Break 3`, `time_remaining = 10`, `quarter = 5`. -/
theorem C7_get_threshold_range_and_overtime_witness :
    ((0 < ShotAdvisor.get_threshold "3PT Field Goal" "Above the Break 3" 10 5 ∧
      ShotAdvisor.get_threshold "3PT Field Goal" "Above the Break 3" 10 5 ≤ 0.5) ∧
    (4 < (5:ℤ) →
      ShotAdvisor.get_threshold "3PT Field Goal" "Above the Break 3" 10 5 ≤
        ShotAdvisor.get_threshold "3PT Field Goal" "Above the Break 3" 10 4)) :=
  C7_get_threshold_range_and_overtime "3PT Field Goal" "Above the Break 3" 10 5
    (by norm_num) (by norm_num)

/-! ## Theorems: C2 and C3 -/

/-- C2: the claim (and the signature, which declares
`defender_distance: Optional[float] = None`) says `get_recommendation` never
fails when the optional defender inputs are absent.  But with
`contest_level = "TIGHT"` and `defender_distance = None` the `tight_contest`
branch formats `{defender_distance:.1f}`, which raises `TypeError` on
`None`; the call does not return normally. -/
theorem C2_get_recommendation_tight_none_distance_raises :
    ActionRecommender.get_recommendation 0.5 "2PT Field Goal" "Mid-Range" 15 10 2
      none (some "TIGHT") =
    Except.error "TypeError: unsupported format string passed to NoneType.__format__" := rfl

/-- C3 counterexample: with `defender_distance = 0`, Python's truthiness
test `(defender_distance and defender_distance <= 3)` is falsy, so the
tight-contest branch is NOT taken; at probability 0.5, zone `Mid-Range`,
`time_remaining = 10`, the primary reason is `low_quality_general`, not the
claimed `tight_contest`. -/
theorem C3_primary_reason_zero_distance_counterexample :
    ActionRecommender.identify_primary_reason 0.5 (some 0) none "Mid-Range" 15 10
      "2PT Field Goal" ≠ "tight_contest" := by
  have h : ActionRecommender.identify_primary_reason 0.5 (some 0) none "Mid-Range" 15 10
      "2PT Field Goal" = "low_quality_general" := by
    unfold ActionRecommender.identify_primary_reason
    rw [if_neg (by decide :
      ¬ ((10:ℤ) ≤ ActionRecommender.LATE_CLOCK_THRESHOLD))]
    rw [if_neg ?hc2]
    case hc2 =>
      rintro (h | h)
      · exact Option.noConfusion h
      · exact h.1 rfl
    rw [if_neg ?hc3]
    case hc3 =>
      rintro (h | h)
      · exact Option.noConfusion h
      · exact h.1 rfl
    rw [if_neg (by norm_num [ActionRecommender.LOW_QUALITY_THRESHOLD] :
      ¬ ((0.5:ℚ) < ActionRecommender.LOW_QUALITY_THRESHOLD))]
    rw [if_neg ?hc5]
    case hc5 =>
      rintro ⟨h, -⟩
      rw [ActionRecommender.MEDIUM_QUALITY_THRESHOLD] at h
      norm_num at h
  rw [h]
  decide

/-- C3 amended: for `time_remaining > 5`, if `contest_level = "TIGHT"` or
`defender_distance` is given, NONZERO, and ≤ 3, the primary reason is
`tight_contest_good_zone` when the zone is a three-point zone and the shot
type is three-point, else `tight_contest`.  (`defender_distance = 0` is
excluded: Python's truthiness makes `0.0` behave as absent.) -/
theorem C3_primary_reason_tight_cascade (make_probability : ℚ)
    (defender_distance : Option ℚ) (contest_level : Option String)
    (zone shot_type : String) (shot_distance : ℚ) (time_remaining : ℤ)
    (ht : 5 < time_remaining)
    (h : contest_level = some "TIGHT" ∨
      ∃ d, defender_distance = some d ∧ d ≠ 0 ∧ d ≤ 3) :
    ActionRecommender.identify_primary_reason make_probability defender_distance
      contest_level zone shot_distance time_remaining shot_type =
    if zone ∈ ActionRecommender.THREE_POINT_ZONES ∧ shot_type = "3PT Field Goal"
    then "tight_contest_good_zone" else "tight_contest" := by
  unfold ActionRecommender.identify_primary_reason
  rw [if_neg (by rw [ActionRecommender.LATE_CLOCK_THRESHOLD]; omega :
    ¬ (time_remaining ≤ ActionRecommender.LATE_CLOCK_THRESHOLD))]
  rw [if_pos ?hcond]
  case hcond =>
    rcases h with h | ⟨d, hdd, h0, h3⟩
    · exact Or.inl h
    · refine Or.inr ?_
      rw [hdd]
      exact ⟨h0, by rw [ActionRecommender.TIGHT_THRESHOLD]; norm_num; exact h3⟩

/-- C3 witness: `contest_level = "TIGHT"`, absent defender distance,
`time_remaining = 10`, zone `Mid-Range`, two-point shot. -/
theorem C3_primary_reason_tight_cascade_witness :
    ActionRecommender.identify_primary_reason 0.2 none (some "TIGHT") "Mid-Range"
      15 10 "2PT Field Goal" =
    if "Mid-Range" ∈ ActionRecommender.THREE_POINT_ZONES ∧
        "2PT Field Goal" = "3PT Field Goal"
    then "tight_contest_good_zone" else "tight_contest" :=
  C3_primary_reason_tight_cascade 0.2 none (some "TIGHT") "Mid-Range"
    "2PT Field Goal" 15 10 (by decide) (Or.inl rfl)

theorem Cent.add {x y : ℚ} (hx : Cent x) (hy : Cent y) : Cent (x + y) := by
  obtain ⟨a, ha⟩ := hx
  obtain ⟨b, hb⟩ := hy
  exact ⟨a + b, by rw [ha, hb]; push_cast; ring⟩

theorem Cent.min {x y : ℚ} (hx : Cent x) (hy : Cent y) : Cent (min x y) := by
  rcases min_choice x y with h | h <;> rw [h] <;> assumption

theorem Cent.max {x y : ℚ} (hx : Cent x) (hy : Cent y) : Cent (max x y) := by
  rcases max_choice x y with h | h <;> rw [h] <;> assumption

theorem cent_roundTo_two {x : ℚ} (h : Cent x) : roundTo 2 x = x := by
  obtain ⟨k, hk⟩ := h
  exact roundTo_eq_self k (by rw [hk]; norm_num)

theorem cent_base_confidence (gap : ℚ) : Cent (base_confidence_of_gap gap) := by
  unfold base_confidence_of_gap
  split_ifs
  exacts [⟨85, by norm_num⟩, ⟨70, by norm_num⟩, ⟨55, by norm_num⟩, ⟨40, by norm_num⟩]

theorem cent_contest_adjustment (decision : String) (contest_level : Option String) :
    Cent (contest_adjustment decision contest_level).1 := by
  unfold contest_adjustment
  split_ifs
  exacts [⟨10, by norm_num⟩, ⟨5, by norm_num⟩, ⟨0, by norm_num⟩, ⟨0, by norm_num⟩]

theorem cent_time_adjustment (time_remaining : ℤ) :
    Cent (time_adjustment time_remaining).1 := by
  unfold time_adjustment
  split_ifs
  exacts [⟨-10, by norm_num⟩, ⟨-5, by norm_num⟩, ⟨0, by norm_num⟩]

theorem cent_location_adjustment (decision shot_type zone : String)
    (shot_distance : ℚ) :
    Cent (location_adjustment decision shot_type zone shot_distance).1 := by
  unfold location_adjustment
  split_ifs
  exacts [⟨8, by norm_num⟩, ⟨6, by norm_num⟩, ⟨7, by norm_num⟩,
    ⟨0, by norm_num⟩, ⟨0, by norm_num⟩]

theorem cent_clutch_adjustment (quarter time_remaining : ℤ) :
    Cent (clutch_adjustment quarter time_remaining).1 := by
  unfold clutch_adjustment
  split_ifs
  exacts [⟨-8, by norm_num⟩, ⟨0, by norm_num⟩]

/-! ## Theorems: C6 and C8 -/

/-- C6: the returned score always lies in [0.15, 0.95] and equals
`clamp(base_confidence + total_adjustment, 0.15, 0.95)`, and the level is
`Very High` iff score ≥ 0.75, `High` iff score ∈ [0.60, 0.75), `Moderate`
iff score ∈ [0.45, 0.60), `Low` otherwise. -/
theorem C6_action_confidence_range_and_levels (make_probability threshold : ℚ)
    (decision shot_type zone : String) (shot_distance : ℚ)
    (time_remaining quarter : ℤ) (defender_distance : Option ℚ)
    (contest_level : Option String) (recommended_action : Option String) :
    (0.15 ≤ (compute_action_confidence make_probability threshold decision
        shot_type zone shot_distance time_remaining quarter defender_distance
        contest_level recommended_action).action_confidence ∧
      (compute_action_confidence make_probability threshold decision
        shot_type zone shot_distance time_remaining quarter defender_distance
        contest_level recommended_action).action_confidence ≤ 0.95) ∧
    (compute_action_confidence make_probability threshold decision
        shot_type zone shot_distance time_remaining quarter defender_distance
        contest_level recommended_action).action_confidence = min 0.95 (max 0.15
      ((compute_action_confidence make_probability threshold decision
        shot_type zone shot_distance time_remaining quarter defender_distance
        contest_level recommended_action).confidence_factors.base_confidence +
       (compute_action_confidence make_probability threshold decision
        shot_type zone shot_distance time_remaining quarter defender_distance
        contest_level recommended_action).confidence_factors.total_adjustment)) ∧
    ((compute_action_confidence make_probability threshold decision
        shot_type zone shot_distance time_remaining quarter defender_distance
        contest_level recommended_action).confidence_level = "Very High" ↔
      0.75 ≤ (compute_action_confidence make_probability threshold decision
        shot_type zone shot_distance time_remaining quarter defender_distance
        contest_level recommended_action).action_confidence) ∧
    ((compute_action_confidence make_probability threshold decision
        shot_type zone shot_distance time_remaining quarter defender_distance
        contest_level recommended_action).confidence_level = "High" ↔
      0.60 ≤ (compute_action_confidence make_probability threshold decision
        shot_type zone shot_distance time_remaining quarter defender_distance
        contest_level recommended_action).action_confidence ∧
      (compute_action_confidence make_probability threshold decision
        shot_type zone shot_distance time_remaining quarter defender_distance
        contest_level recommended_action).action_confidence < 0.75) ∧
    ((compute_action_confidence make_probability threshold decision
        shot_type zone shot_distance time_remaining quarter defender_distance
        contest_level recommended_action).confidence_level = "Moderate" ↔
      0.45 ≤ (compute_action_confidence make_probability threshold decision
        shot_type zone shot_distance time_remaining quarter defender_distance
        contest_level recommended_action).action_confidence ∧
      (compute_action_confidence make_probability threshold decision
        shot_type zone shot_distance time_remaining quarter defender_distance
        contest_level recommended_action).action_confidence < 0.60) ∧
    ((compute_action_confidence make_probability threshold decision
        shot_type zone shot_distance time_remaining quarter defender_distance
        contest_level recommended_action).confidence_level = "Low" ↔
      (compute_action_confidence make_probability threshold decision
        shot_type zone shot_distance time_remaining quarter defender_distance
        contest_level recommended_action).action_confidence < 0.45) := by
  set r := compute_action_confidence make_probability threshold decision
    shot_type zone shot_distance time_remaining quarter defender_distance
    contest_level recommended_action with hr
  have hBc : Cent (base_confidence_of_gap |make_probability - threshold|) :=
    cent_base_confidence _
  have hTc : Cent ((contest_adjustment decision contest_level).1 +
      (time_adjustment time_remaining).1 +
      (location_adjustment decision shot_type zone shot_distance).1 +
      (clutch_adjustment quarter time_remaining).1) :=
    Cent.add (Cent.add (Cent.add (cent_contest_adjustment _ _)
      (cent_time_adjustment _)) (cent_location_adjustment _ _ _ _))
      (cent_clutch_adjustment _ _)
  have hFc : Cent (min 0.95 (max 0.15
      (base_confidence_of_gap |make_probability - threshold| +
        ((contest_adjustment decision contest_level).1 +
          (time_adjustment time_remaining).1 +
          (location_adjustment decision shot_type zone shot_distance).1 +
          (clutch_adjustment quarter time_remaining).1)))) :=
    Cent.min ⟨95, by norm_num⟩ (Cent.max ⟨15, by norm_num⟩ (Cent.add hBc hTc))
  have hscore : r.action_confidence = min 0.95 (max 0.15
      (base_confidence_of_gap |make_probability - threshold| +
        ((contest_adjustment decision contest_level).1 +
          (time_adjustment time_remaining).1 +
          (location_adjustment decision shot_type zone shot_distance).1 +
          (clutch_adjustment quarter time_remaining).1))) := cent_roundTo_two hFc
  have hbase : r.confidence_factors.base_confidence =
      base_confidence_of_gap |make_probability - threshold| := cent_roundTo_two hBc
  have htotal : r.confidence_factors.total_adjustment =
      ((contest_adjustment decision contest_level).1 +
        (time_adjustment time_remaining).1 +
        (location_adjustment decision shot_type zone shot_distance).1 +
        (clutch_adjustment quarter time_remaining).1) := cent_roundTo_two hTc
  have hlevel : r.confidence_level =
      (if 0.75 ≤ min 0.95 (max 0.15
          (base_confidence_of_gap |make_probability - threshold| +
            ((contest_adjustment decision contest_level).1 +
              (time_adjustment time_remaining).1 +
              (location_adjustment decision shot_type zone shot_distance).1 +
              (clutch_adjustment quarter time_remaining).1))) then "Very High"
        else if 0.60 ≤ min 0.95 (max 0.15
          (base_confidence_of_gap |make_probability - threshold| +
            ((contest_adjustment decision contest_level).1 +
              (time_adjustment time_remaining).1 +
              (location_adjustment decision shot_type zone shot_distance).1 +
              (clutch_adjustment quarter time_remaining).1))) then "High"
        else if 0.45 ≤ min 0.95 (max 0.15
          (base_confidence_of_gap |make_probability - threshold| +
            ((contest_adjustment decision contest_level).1 +
              (time_adjustment time_remaining).1 +
              (location_adjustment decision shot_type zone shot_distance).1 +
              (clutch_adjustment quarter time_remaining).1))) then "Moderate"
        else "Low") := rfl
  set F := min 0.95 (max 0.15
      (base_confidence_of_gap |make_probability - threshold| +
        ((contest_adjustment decision contest_level).1 +
          (time_adjustment time_remaining).1 +
          (location_adjustment decision shot_type zone shot_distance).1 +
          (clutch_adjustment quarter time_remaining).1))) with hFdef
  refine ⟨⟨?_, ?_⟩, ?_, ?_, ?_, ?_, ?_⟩
  · rw [hscore]
    exact le_min (by norm_num) (le_trans (by norm_num) (le_max_left _ _))
  · rw [hscore]
    exact min_le_left _ _
  · rw [hscore, hbase, htotal]
  · rw [hscore, hlevel]
    split_ifs with h1 h2 h3
    · exact iff_of_true rfl h1
    · exact iff_of_false (by decide) h1
    · exact iff_of_false (by decide) h1
    · exact iff_of_false (by decide) h1
  · rw [hscore, hlevel]
    split_ifs with h1 h2 h3
    · exact iff_of_false (by decide) (fun hh => absurd hh.2 (not_lt.mpr h1))
    · exact iff_of_true rfl ⟨h2, not_le.mp h1⟩
    · exact iff_of_false (by decide) (fun hh => absurd hh.1 h2)
    · exact iff_of_false (by decide) (fun hh => absurd hh.1 h2)
  · rw [hscore, hlevel]
    split_ifs with h1 h2 h3
    · exact iff_of_false (by decide)
        (fun hh => absurd hh.2 (not_lt.mpr (le_trans (by norm_num : (0.60:ℚ) ≤ 0.75) h1)))
    · exact iff_of_false (by decide) (fun hh => absurd hh.2 (not_lt.mpr h2))
    · exact iff_of_true rfl ⟨h3, not_le.mp h2⟩
    · exact iff_of_false (by decide) (fun hh => absurd hh.1 h3)
  · rw [hscore, hlevel]
    split_ifs with h1 h2 h3
    · exact iff_of_false (by decide)
        (fun hh => absurd hh (not_lt.mpr (le_trans (by norm_num : (0.45:ℚ) ≤ 0.75) h1)))
    · exact iff_of_false (by decide)
        (fun hh => absurd hh (not_lt.mpr (le_trans (by norm_num : (0.45:ℚ) ≤ 0.60) h2)))
    · exact iff_of_false (by decide) (fun hh => absurd hh (not_lt.mpr h3))
    · exact iff_of_true rfl (not_le.mp h3)


/-- The location tags inside the active-adjustments list of
`compute_action_confidence` are exactly those produced by the location
block. -/
theorem active_filter_location (make_probability threshold : ℚ)
    (decision shot_type zone : String) (shot_distance : ℚ)
    (time_remaining quarter : ℤ) (defender_distance : Option ℚ)
    (contest_level : Option String) (recommended_action : Option String) :
    ((compute_action_confidence make_probability threshold decision shot_type
      zone shot_distance time_remaining quarter defender_distance contest_level
      recommended_action).confidence_factors.active_adjustments).filter isLocationTag
    = (location_adjustment decision shot_type zone shot_distance).2 := by
  have h : (compute_action_confidence make_probability threshold decision
      shot_type zone shot_distance time_remaining quarter defender_distance
      contest_level recommended_action).confidence_factors.active_adjustments
      = (contest_adjustment decision contest_level).2 ++
        (time_adjustment time_remaining).2 ++
        (location_adjustment decision shot_type zone shot_distance).2 ++
        (clutch_adjustment quarter time_remaining).2 := rfl
  have hc : ((contest_adjustment decision contest_level).2).filter isLocationTag
      = [] := by
    unfold contest_adjustment; split_ifs <;> rfl
  have htt : ((time_adjustment time_remaining).2).filter isLocationTag = [] := by
    unfold time_adjustment; split_ifs <;> rfl
  have hl : ((location_adjustment decision shot_type zone shot_distance).2).filter
      isLocationTag
      = (location_adjustment decision shot_type zone shot_distance).2 := by
    unfold location_adjustment; split_ifs <;> rfl
  have hcl : ((clutch_adjustment quarter time_remaining).2).filter isLocationTag
      = [] := by
    unfold clutch_adjustment; split_ifs <;> rfl
  rw [h, List.filter_append, List.filter_append, List.filter_append,
    hc, htt, hl, hcl]
  simp

/-- C8: in the PASS-decision location block the three adjustments are
applied first-match-wins and never stack: a three-point shot from ≥ 27 ft
gets exactly +0.08 with the `deep_three_attempt` tag (even when the
above-the-break +0.07 condition also holds); otherwise a two-point
`Mid-Range` shot from ≥ 15 ft gets exactly +0.06; otherwise a three-point
`Above the Break 3` shot from ≥ 25 ft gets exactly +0.07; otherwise no
location adjustment fires.  The active-adjustments list of the full
`compute_action_confidence` contains exactly those location tags. -/
theorem C8_location_adjustment_first_match_wins (make_probability threshold : ℚ)
    (shot_type zone : String) (shot_distance : ℚ) (time_remaining quarter : ℤ)
    (defender_distance : Option ℚ) (contest_level recommended_action : Option String) :
    (shot_type = "3PT Field Goal" ∧ 27 ≤ shot_distance →
      location_adjustment "PASS" shot_type zone shot_distance
        = (0.08, ["deep_three_attempt"])) ∧
    (¬(shot_type = "3PT Field Goal" ∧ 27 ≤ shot_distance) →
      shot_type = "2PT Field Goal" ∧ zone = "Mid-Range" ∧ 15 ≤ shot_distance →
      location_adjustment "PASS" shot_type zone shot_distance
        = (0.06, ["inefficient_midrange"])) ∧
    (¬(shot_type = "3PT Field Goal" ∧ 27 ≤ shot_distance) →
      ¬(shot_type = "2PT Field Goal" ∧ zone = "Mid-Range" ∧ 15 ≤ shot_distance) →
      shot_type = "3PT Field Goal" ∧ zone = "Above the Break 3" ∧ 25 ≤ shot_distance →
      location_adjustment "PASS" shot_type zone shot_distance
        = (0.07, ["difficult_angle"])) ∧
    (¬(shot_type = "3PT Field Goal" ∧ 27 ≤ shot_distance) →
      ¬(shot_type = "2PT Field Goal" ∧ zone = "Mid-Range" ∧ 15 ≤ shot_distance) →
      ¬(shot_type = "3PT Field Goal" ∧ zone = "Above the Break 3" ∧ 25 ≤ shot_distance) →
      location_adjustment "PASS" shot_type zone shot_distance = (0, [])) ∧
    ((compute_action_confidence make_probability threshold "PASS" shot_type
      zone shot_distance time_remaining quarter defender_distance contest_level
      recommended_action).confidence_factors.active_adjustments).filter isLocationTag
    = (location_adjustment "PASS" shot_type zone shot_distance).2 := by
  refine ⟨?_, ?_, ?_, ?_, active_filter_location _ _ _ _ _ _ _ _ _ _ _⟩
  · intro h1
    unfold location_adjustment
    rw [if_pos rfl, if_pos h1]
  · intro hn1 h2
    unfold location_adjustment
    rw [if_pos rfl, if_neg hn1, if_pos h2]
  · intro hn1 hn2 h3
    unfold location_adjustment
    rw [if_pos rfl, if_neg hn1, if_neg hn2, if_pos h3]
  · intro hn1 hn2 hn3
    unfold location_adjustment
    rw [if_pos rfl, if_neg hn1, if_neg hn2, if_neg hn3]

/-- C8 witness: a three-pointer from 28 ft in the `Above the Break 3` zone
satisfies both the deep-three and the above-the-break conditions; only the
first fires, with +0.08. -/
theorem C8_location_adjustment_first_match_wins_witness :
    location_adjustment "PASS" "3PT Field Goal" "Above the Break 3" 28
      = (0.08, ["deep_three_attempt"]) :=
  (C8_location_adjustment_first_match_wins 0.2 0.35 "3PT Field Goal"
    "Above the Break 3" 28 20 1 none none none).1 ⟨rfl, by norm_num⟩
